import Mathlib

/-!
Shallow embedding of `src/index.ts` of the `use-three` repository: the React
hook `useThree(events, context)` that binds a component's lifecycle to a
three.js render session.

Modelling choices, all derived from the source:

* Machine numbers (`clientWidth`, timestamps, `devicePixelRatio`) are modelled
  as rationals; the one place where JavaScript floating-point division can
  produce `Infinity`/`NaN` (`const aspect = width / height;`) is modelled by
  `JsNum`, whose `jsDiv` mirrors IEEE division by zero.
* Handler functions are opaque: each handler is identified by a `Nat` id and
  an invocation is recorded in a trace (`Event`), together with the arguments
  the source passes (`storage.current` by reference, delta time, payload).
  Event payloads (`item`, `url`) are opaque `Nat` identifiers.
* three.js objects (`Scene`, `WebGLRenderer`, camera, `LoadingManager`) are
  records of the fields the source touches plus an `id` capturing JavaScript
  object identity; mutation of a shared object (e.g. `renderer.setSize` after
  the renderer was stored into `storage.current`) is modelled by applying the
  field update everywhere the reference lives.
* `requestAnimationFrame` returns a handle chosen by the host; functions that
  call it take that handle as an argument. `!frameId.current` truthiness
  (undefined or 0 is falsy) is `frameTruthy`.
* React semantics of the hook: `useRef(x)` assigns only on the first render;
  `useEffect(f, [])` runs `f` once, after the first render, with the first
  render's `events`/`context` captured in its closure (held in
  `firstRenderEvents` / `firstRenderContext`); `useCallback` closures read
  refs, so they always see current ref state. A re-render therefore leaves
  the hook's ref state untouched (`rerender`).
-/

namespace UseThree

/-- Result of a JavaScript floating-point division: finite, ±Infinity or NaN. -/
inductive JsNum where
  | num (q : ℚ)
  | posInf
  | negInf
  | nan
deriving DecidableEq, Repr

/-- JavaScript `a / b` on real-valued operands: division by zero yields
NaN (for 0/0) or a signed infinity, otherwise the exact quotient. -/
def jsDiv (a b : ℚ) : JsNum :=
  if b = 0 then
    if a = 0 then JsNum.nan
    else if 0 < a then JsNum.posInf
    else JsNum.negInf
  else JsNum.num (a / b)

/-- Camera discriminant, from `camera.current.type === "PerspectiveCamera"`. -/
inductive CameraType where
  | perspectiveCamera
  | orthographicCamera
deriving DecidableEq, Repr

/-- A `THREE.PerspectiveCamera | THREE.OrthographicCamera`: the fields the hook
touches (`fov`, `aspect`, `near`, `far` from the default constructor call) plus
an `id` for object identity. -/
structure Camera where
  id : Nat
  type : CameraType
  fov : ℚ
  aspect : JsNum
  near : ℚ
  far : ℚ
deriving DecidableEq, Repr

/-- A `THREE.WebGLRenderer`: drawing-buffer size and pixel ratio (set by
`setSize` / `setPixelRatio`), whether it was constructed over a `webgl2`
canvas context, and an `id` for object identity. -/
structure WebGLRenderer where
  id : Nat
  width : ℚ
  height : ℚ
  pixelDensity : ℚ
  webgl2Context : Bool
deriving DecidableEq, Repr

/-- Renderer produced by `new THREE.WebGLRenderer()` with no arguments: a
default (webgl1) context; size and pixel ratio at three.js defaults. -/
def newWebGLRenderer (id : Nat) : WebGLRenderer :=
  { id := id, width := 300, height := 150, pixelDensity := 1, webgl2Context := false }

/-- A `THREE.Scene`, opaque except for identity. -/
structure Scene where
  id : Nat
deriving DecidableEq, Repr

/-- A `THREE.LoadingManager`, opaque except for identity; its `onProgress`,
`onError`, `onLoad` hooks are modelled by the forwarder functions below. -/
structure LoadingManager where
  id : Nat
deriving DecidableEq, Repr

/-- The caller-defined `Store` mapping (`[key: string]: any`), specialised to
the one key the specification discusses: a `manualRender` entry. -/
structure Store where
  manualRender : Bool := false
deriving DecidableEq, Repr

/-- `storage.current : Context` — the shared context record. Resource fields
are `Option` because `storage` starts as `{} as any`; `manualRender` and
`webgl2` are the dynamic top-level fields (`[type: string]: any`) that the
spread `{ ...storage.current, ...context }` copies in from the context
arguments. Note the tick reads `storage.current.manualRender`, a field of
this record itself, distinct from `store.manualRender`. -/
structure Storage where
  store : Option Store
  scene : Option Scene
  camera : Option Camera
  renderer : Option WebGLRenderer
  manager : Option LoadingManager
  manualRender : Bool
  webgl2 : Bool
deriving DecidableEq, Repr

/-- `storage.current` at hook creation: `{} as any` (every field absent). -/
def emptyStorage : Storage :=
  { store := none, scene := none, camera := none, renderer := none,
    manager := none, manualRender := false, webgl2 := false }

/-- `EventsArguments`: the six optional handlers, each an opaque handler
identity (`none` = handler absent). -/
structure EventsArguments where
  onStart : Option Nat := none
  onUpdate : Option Nat := none
  onDestroy : Option Nat := none
  onLoad : Option Nat := none
  onLoadError : Option Nat := none
  onLoadProgress : Option Nat := none
deriving DecidableEq, Repr

/-- `ContextArguments`: optional pre-built resources, the optional initial
`store`, the `webgl2` option, and the dynamic `manualRender` extension field
(absent is indistinguishable from `false`, since only truthiness is read). -/
structure ContextArguments where
  store : Option Store := none
  scene : Option Scene := none
  renderer : Option WebGLRenderer := none
  camera : Option Camera := none
  manager : Option LoadingManager := none
  webgl2 : Bool := false
  manualRender : Bool := false
deriving DecidableEq, Repr

/-- One observable side effect of the hook: a handler invocation (with the
arguments the source passes), a frame-pacing call, a render-pass call, or a
DOM operation. -/
inductive Event where
  | callStart (handler : Nat) (ctx : Storage)
  | callUpdate (handler : Nat) (ctx : Storage) (delta : ℚ)
  | callDestroy (handler : Nat) (ctx : Storage)
  | callLoad (handler : Nat) (ctx : Storage)
  | callLoadError (handler : Nat) (ctx : Storage) (url : Nat)
  | callLoadProgress (handler : Nat) (ctx : Storage) (item : Nat) (loaded : Nat) (total : Nat)
  | requestAnimationFrame
  | cancelAnimationFrame (handle : Nat)
  | updateProjectionMatrix (cameraId : Nat)
  | render (rendererId : Nat) (sceneId : Nat) (cameraId : Nat)
  | appendChild (rendererId : Nat)
  | addResizeListener
deriving DecidableEq, Repr

/-- The hook instance's mutable state: every `useRef` cell, plus the
`events`/`context` values captured by the mount effect's closure at the
first render. -/
structure HookState where
  storage : Storage
  store : Store
  frameId : Option Nat
  scene : Option Scene
  camera : Option Camera
  renderer : Option WebGLRenderer
  manager : Option LoadingManager
  deltaTime : ℚ
  lastTime : ℚ
  callbacks : EventsArguments
  firstRenderEvents : EventsArguments
  firstRenderContext : ContextArguments
deriving DecidableEq, Repr

/-- JavaScript truthiness of `frameId.current : number | undefined`:
`undefined` and `0` are falsy. -/
def frameTruthy : Option Nat → Bool
  | none => false
  | some n => n != 0

/-- JavaScript `window.devicePixelRatio || 1`: fall back to 1 when the value
is absent or falsy (0). -/
def jsOrOne : Option ℚ → ℚ
  | none => 1
  | some d => if d = 0 then 1 else d

/-- `renderScene`: if `renderer.current && camera.current && scene.current`
are all present, recompute the camera's projection matrix and render;
otherwise do nothing. Returns the emitted render-pass events. -/
def renderScene (s : HookState) : List Event :=
  match s.renderer, s.camera, s.scene with
  | some r, some c, some sc =>
      [Event.updateProjectionMatrix c.id, Event.render r.id sc.id c.id]
  | _, _, _ => []

/-- The per-frame `update(time)` callback: compute
`deltaTime = (time - lastTime) / 1000`, re-request the next frame (handle
`fid` returned by the host), invoke `callbacks.current.onUpdate` if present
with `storage.current` and the delta, render unless
`storage.current.manualRender` is truthy, then set `lastTime = time`. -/
def update (time : ℚ) (fid : Nat) (s : HookState) : HookState × List Event :=
  let delta := (time - s.lastTime) / 1000
  let s1 := { s with deltaTime := delta, frameId := some fid }
  let updateEvents :=
    match s1.callbacks.onUpdate with
    | some h => [Event.callUpdate h s1.storage delta]
    | none => []
  let renderEvents := if s1.storage.manualRender then [] else renderScene s1
  ({ s1 with lastTime := time },
    Event.requestAnimationFrame :: (updateEvents ++ renderEvents))

/-- `start()`: invoke `callbacks.current.onStart` (if present) with
`storage.current`, then, only when `!frameId.current` (falsy handle), request
the first frame and store the host-returned handle `fid`. -/
def start (fid : Nat) (s : HookState) : HookState × List Event :=
  let startEvents :=
    match s.callbacks.onStart with
    | some h => [Event.callStart h s.storage]
    | none => []
  if frameTruthy s.frameId then
    (s, startEvents)
  else
    ({ s with frameId := some fid }, startEvents ++ [Event.requestAnimationFrame])

/-- `stop()`: invoke `callbacks.current.onDestroy` (if present) with
`storage.current`, then cancel the pending frame request when the handle is
truthy. The handle is not cleared by the source, so the state is unchanged. -/
def stop (s : HookState) : HookState × List Event :=
  let destroyEvents :=
    match s.callbacks.onDestroy with
    | some h => [Event.callDestroy h s.storage]
    | none => []
  let cancelEvents :=
    match s.frameId with
    | some handle => if handle != 0 then [Event.cancelAnimationFrame handle] else []
    | none => []
  (s, destroyEvents ++ cancelEvents)

/-- The forwarder wired to `manager.current.onProgress`: read the current
`callbacks.current.onLoadProgress` and, if present, invoke it with
`storage.current` and the native payload `(item, loaded, total)`. -/
def managerOnProgress (s : HookState) (item loaded total : Nat) : List Event :=
  match s.callbacks.onLoadProgress with
  | some h => [Event.callLoadProgress h s.storage item loaded total]
  | none => []

/-- The forwarder wired to `manager.current.onError`: read the current
`callbacks.current.onLoadError` and, if present, invoke it with
`storage.current` and the failing `url`. -/
def managerOnError (s : HookState) (url : Nat) : List Event :=
  match s.callbacks.onLoadError with
  | some h => [Event.callLoadError h s.storage url]
  | none => []

/-- The forwarder wired to `manager.current.onLoad`: read the current
`callbacks.current.onLoad` and, if present, invoke it with `storage.current`. -/
def managerOnLoad (s : HookState) : List Event :=
  match s.callbacks.onLoad with
  | some h => [Event.callLoad h s.storage]
  | none => []

/-- The default camera constructed when `context.camera` is absent:
`new THREE.PerspectiveCamera(75, aspect, 0.1, 1000)`. -/
def defaultCamera (aspect : JsNum) (id : Nat) : Camera :=
  { id := id, type := CameraType.perspectiveCamera, fov := 75, aspect := aspect,
    near := 1/10, far := 1000 }

/-- `createRenderer`: when `context.webgl2` is set, build the renderer over a
fresh canvas's `webgl2` context (`canvasContext || undefined` — if the host
cannot supply a webgl2 context, the renderer falls back to a default context);
otherwise `new THREE.WebGLRenderer()`. `webgl2Available` models whether
`canvas.getContext("webgl2")` returns a context. NOTE: this function exists in
the source but is never called — the mount effect constructs its renderer
directly. -/
def createRenderer (webgl2Option webgl2Available : Bool) (id : Nat) : WebGLRenderer :=
  if webgl2Option then
    { newWebGLRenderer id with webgl2Context := webgl2Available }
  else
    newWebGLRenderer id

/-- The body of `useEffect(..., [])`, run once after the first render, with
the first render's `events` and `context` in its closure. Inputs from the
host: container dimensions `w × h` (`ref.current.clientWidth/Height`), the
device pixel ratio `dpr` (`none` when unavailable), the handle `fid` the host
returns from `requestAnimationFrame`, and `fresh`, the base for the object
identities of default-constructed resources (scene `fresh`, renderer
`fresh+1`, camera `fresh+2`, manager `fresh+3`). Mirrors the source order:
assign `callbacks.current = events`; compute `aspect = width / height`;
populate the four resource refs (`context.X || default`); spread `context`
into `storage.current` and overwrite its resource fields with the refs and
`store.current`; `renderer.setSize(width, height)` and
`renderer.setPixelRatio(window.devicePixelRatio || 1)` (a mutation of the
shared renderer object, hence visible through `storage.current.renderer`);
wire the three manager forwarders (modelled by `managerOnProgress` /
`managerOnError` / `managerOnLoad` acting on the current state); call
`start()`; append the renderer's DOM element; register the resize listener. -/
def mountEffect (w h : ℚ) (dpr : Option ℚ) (fid fresh : Nat) (s : HookState) :
    HookState × List Event :=
  let events := s.firstRenderEvents
  let context := s.firstRenderContext
  let s0 := { s with callbacks := events }
  let aspect := jsDiv w h
  let scene := context.scene.getD { id := fresh }
  let renderer0 := context.renderer.getD (newWebGLRenderer (fresh + 1))
  let camera := context.camera.getD (defaultCamera aspect (fresh + 2))
  let manager := context.manager.getD { id := fresh + 3 }
  let renderer1 := { renderer0 with width := w, height := h, pixelDensity := jsOrOne dpr }
  let storage1 : Storage :=
    { store := some s0.store, scene := some scene, camera := some camera,
      renderer := some renderer1, manager := some manager,
      manualRender := context.manualRender, webgl2 := context.webgl2 }
  let s1 := { s0 with
    scene := some scene, camera := some camera,
    renderer := some renderer1, manager := some manager,
    storage := storage1 }
  let r := start fid s1
  (r.1, r.2 ++ [Event.appendChild renderer1.id, Event.addResizeListener])

/-- The first render of the owning component: every `useRef(init)` cell is
initialised (`callbacks.current = events`, `store.current = context.store || {}`,
`storage.current = {} as any`, numeric refs zero/undefined), and the mount
effect's closure captures this render's `events` and `context`. -/
def firstRender (events : EventsArguments) (context : ContextArguments) : HookState :=
  { storage := emptyStorage,
    store := context.store.getD {},
    frameId := none,
    scene := none, camera := none, renderer := none, manager := none,
    deltaTime := 0, lastTime := 0,
    callbacks := events,
    firstRenderEvents := events,
    firstRenderContext := context }

/-- A subsequent render of the owning component with new `events`/`context`
props. `useRef` ignores its argument after the first render, `useCallback`
closures only read refs, and `useEffect(..., [])` compares its empty
dependency list and does not re-run — so no ref cell changes: in particular
the line `callbacks.current = events` inside the once-only effect never
executes again, and the new handler set is dropped. -/
def rerender (s : HookState) (_events : EventsArguments)
    (_context : ContextArguments) : HookState :=
  s

/-- The handler ids of the `onUpdate` invocations recorded in a trace. -/
def updateHandlerIds (tr : List Event) : List Nat :=
  tr.filterMap fun e =>
    match e with
    | Event.callUpdate h _ _ => some h
    | _ => none

/-! Concrete scenario states used by counterexamples and witnesses. -/

/-- A call of `useThree(events)` with no context arguments. -/
def ctxEmpty : ContextArguments := {}

/-- The hook state right after mounting in an 800×600 container with
handler set `{ onUpdate := handler 1 }` supplied at the first render. -/
def c1Mounted : HookState :=
  (mountEffect 800 600 (some 2) 7 100 (firstRender { onUpdate := some 1 } ctxEmpty)).1

/-- The hook state after mounting in an 800×600 container with
`{ onStart := handler 7 }`; its mount already requested frame handle 5. -/
def c2State : HookState :=
  (mountEffect 800 600 none 5 100 (firstRender { onStart := some 7 } ctxEmpty)).1

/-- Context arguments whose `store` carries a truthy `manualRender` entry. -/
def ctxC4 : ContextArguments := { store := some { manualRender := true } }

/-- The hook state after mounting with `ctxC4` (so
`storage.current.store.manualRender` is `true` while
`storage.current.manualRender` is `false`). -/
def c4State : HookState :=
  (mountEffect 800 600 none 5 100 (firstRender { onUpdate := some 1 } ctxC4)).1

/-- Context arguments requesting the `webgl2` renderer backend, with no
pre-built renderer supplied. -/
def ctxWebgl2 : ContextArguments := { webgl2 := true }

/-- The hook state after mounting with `ctxWebgl2`. -/
def c7State : HookState :=
  (mountEffect 800 600 none 5 100 (firstRender {} ctxWebgl2)).1

/-- A fully populated post-mount state with all six handlers registered
(handler ids 7, 1, 3, 4, 5, 6 in declaration order), mounted in an 800×600
container with frame handle 5 pending. -/
def sEx : HookState :=
  (mountEffect 800 600 none 5 100 (firstRender
    { onStart := some 7, onUpdate := some 1, onDestroy := some 3,
      onLoad := some 4, onLoadError := some 5, onLoadProgress := some 6 } ctxEmpty)).1

/-- Helper for C10: `renderScene` is a no-op when any of the three resource
handles is missing. -/
theorem renderScene_missing (s : HookState)
    (h : s.renderer = none ∨ s.camera = none ∨ s.scene = none) :
    renderScene s = [] := by
  cases hr : s.renderer <;> cases hc : s.camera <;> cases hsc : s.scene <;>
    simp_all [renderScene]

/-- C1: the Callback Registry is NOT updated on later renders. A component
mounted with handler set `{ onUpdate := 1 }` that re-renders supplying the
new handler set `{ onUpdate := 2 }` still has its next tick invoke handler 1
and never handler 2: the assignment `callbacks.current = events` sits inside
the once-only `useEffect(..., [])`, so the registry keeps the first render's
handlers for the life of the session. This refutes the claim that every
render supplying a new handler set mutates the registry to the most recent
handlers and exhibits the stale-closure leakage the spec forbids. -/
theorem C1_registry_stale_after_rerender :
    updateHandlerIds
      (update 1000 8 (rerender c1Mounted { onUpdate := some 2 } ctxEmpty)).2 = [1] := by
  decide

/-- C2 counterexample: `start()` with a pending frame request (truthy handle)
is NOT a complete no-op — it still invokes `onStart`. In state `c2State`
(frame handle 5 pending after the mount's own `start()`), a second `start()`
produces exactly one `onStart` invocation (and, as the claim correctly says,
no new frame request). -/
theorem C2_counterexample :
    frameTruthy c2State.frameId = true ∧
    (start 6 c2State).2 = [Event.callStart 7 c2State.storage] :=
  ⟨rfl, rfl⟩

/-- C2 (amended): the frame-request half of the guard does hold — `start()`
schedules a frame only when the pending handle is falsy, so two successive
`start()` calls request exactly one frame, and the handle from the first call
survives; but `onStart` is invoked by every `start()` call (here: by both),
not only on the Unstarted-to-Running transition. -/
theorem C2_start_idempotent_scheduling (s : HookState) (fid fid2 : Nat)
    (hfid : fid ≠ 0) (h0 : s.frameId = none) :
    ((start fid s).2.count Event.requestAnimationFrame = 1) ∧
    ((start fid2 (start fid s).1).2.count Event.requestAnimationFrame = 0) ∧
    ((start fid2 (start fid s).1).1.frameId = some fid) ∧
    (∀ hS, s.callbacks.onStart = some hS →
      Event.callStart hS s.storage ∈ (start fid s).2 ∧
      Event.callStart hS s.storage ∈ (start fid2 (start fid s).1).2) := by
  cases hO : s.callbacks.onStart <;>
    simp_all [start, frameTruthy, h0, hfid, List.count_cons]

/-- C2 witness: the amended theorem applied to a freshly created hook state
with `onStart := handler 7`: the first `start()` requests exactly one frame
and the second requests none. -/
theorem C2_amended_witness :
    ((start 5 (firstRender { onStart := some 7 } ctxEmpty)).2.count
       Event.requestAnimationFrame = 1) ∧
    ((start 6 (start 5 (firstRender { onStart := some 7 } ctxEmpty)).1).2.count
       Event.requestAnimationFrame = 0) := by
  have h := C2_start_idempotent_scheduling
    (firstRender { onStart := some 7 } ctxEmpty) 5 6 (by norm_num) rfl
  exact ⟨h.1, h.2.1⟩

/-- C3: the tick contract. `update(time)` computes
`deltaSeconds = (time - lastTime) / 1000`, re-requests the next frame as the
very first emitted effect (before any handler invocation), then invokes the
registered `onUpdate` with the shared context and the delta as the second
emitted effect, and stores `time` into `lastTime`; a first tick at timestamp
1000 against the zero baseline yields delta 1. -/
theorem C3_tick_contract (s : HookState) (t : ℚ) (fid hU : Nat)
    (hu : s.callbacks.onUpdate = some hU) :
    ((update t fid s).1.deltaTime = (t - s.lastTime) / 1000) ∧
    ((update t fid s).1.lastTime = t) ∧
    ((update t fid s).1.frameId = some fid) ∧
    (∃ rest, (update t fid s).2 =
      Event.requestAnimationFrame ::
        Event.callUpdate hU s.storage ((t - s.lastTime) / 1000) :: rest) ∧
    (s.lastTime = 0 → t = 1000 → (update t fid s).1.deltaTime = 1) := by
  refine ⟨rfl, rfl, rfl, ?_, ?_⟩
  · refine ⟨if s.storage.manualRender then [] else
      renderScene { s with deltaTime := (t - s.lastTime) / 1000, frameId := some fid }, ?_⟩
    simp [update, hu]
  · intro h0 ht
    show (t - s.lastTime) / 1000 = 1
    rw [h0, ht]
    norm_num

/-- C3 witness: the tick contract applied to the populated post-mount state
`sEx` (whose `onUpdate` is handler 1 and whose `lastTime` is 0) at timestamp
1000 with frame handle 8. -/
theorem C3_witness :
    ((update 1000 8 sEx).1.deltaTime = 1) ∧ ((update 1000 8 sEx).1.lastTime = 1000) := by
  have h := C3_tick_contract sEx 1000 8 1 rfl
  exact ⟨h.2.2.2.2 rfl rfl, h.2.1⟩

/-- C4 counterexample: the render-suppression flag is read from the Shared
Context record itself (`storage.current.manualRender`), not from its `store`
sub-record. In `c4State` the caller-supplied store carries
`manualRender = true`, yet the tick still performs the render call — refuting
the claim that a `manualRender` flag carried by the Shared Context's store
suppresses rendering. -/
theorem C4_counterexample :
    c4State.storage.store = some { manualRender := true } ∧
    Event.render 101 100 102 ∈ (update 1000 6 c4State).2 := by
  decide

/-- C4 (amended): the flag the tick honours is the `manualRender` field of
the Shared Context record itself. With it truthy, the tick invokes `onUpdate`
and emits no render-pass call; with it falsy (and the three resource handles
present), the tick emits exactly update-then-projection-recompute-then-render,
in that order. -/
theorem C4_manualRender_amended (s : HookState) (t : ℚ) (fid hU : Nat)
    (hu : s.callbacks.onUpdate = some hU) :
    (s.storage.manualRender = true →
      (update t fid s).2 = [Event.requestAnimationFrame,
        Event.callUpdate hU s.storage ((t - s.lastTime) / 1000)]) ∧
    (s.storage.manualRender = false →
      ∀ sc cam ren, s.scene = some sc → s.camera = some cam → s.renderer = some ren →
      (update t fid s).2 = [Event.requestAnimationFrame,
        Event.callUpdate hU s.storage ((t - s.lastTime) / 1000),
        Event.updateProjectionMatrix cam.id,
        Event.render ren.id sc.id cam.id]) := by
  constructor
  · intro hm
    simp [update, renderScene, hu, hm]
  · intro hm sc cam ren hsc hcam hren
    simp [update, renderScene, hu, hm, hsc, hcam, hren]

/-- C4 witness: the amended theorem applied to `c4State` (where the context
record's own `manualRender` is falsy) at timestamp 1000: the tick's trace is
exactly frame-request, update with delta 1, projection recompute, render. -/
theorem C4_amended_witness :
    (update 1000 6 c4State).2 = [Event.requestAnimationFrame,
      Event.callUpdate 1 c4State.storage ((1000 - c4State.lastTime) / 1000),
      Event.updateProjectionMatrix 102,
      Event.render 101 100 102] :=
  (C4_manualRender_amended c4State 1000 6 1 rfl).2 rfl
    { id := 100 } (defaultCamera (jsDiv 800 600) 102)
    { newWebGLRenderer 101 with width := 800, height := 600, pixelDensity := 1 }
    rfl rfl rfl

/-- C5: `stop()` invokes `onDestroy` with the Shared Context and then cancels
the pending frame request when a truthy handle exists, leaving the hook state
(including the handle) unchanged; a second `stop()` is therefore well-defined
and re-invokes `onDestroy` (and re-issues the cancellation with the stale
handle) — there is no stopped-state guard beyond the truthy-handle check. -/
theorem C5_stop_contract (s : HookState) (hD handle : Nat)
    (hd : s.callbacks.onDestroy = some hD) (hf : s.frameId = some handle)
    (hnz : handle ≠ 0) :
    (stop s = (s, [Event.callDestroy hD s.storage, Event.cancelAnimationFrame handle])) ∧
    ((stop (stop s).1).2 =
      [Event.callDestroy hD s.storage, Event.cancelAnimationFrame handle]) := by
  constructor <;> simp [stop, hd, hf, hnz]

/-- C5 witness: `stop()` on the populated post-mount state `sEx` (handle 5
pending, `onDestroy` handler 3) emits destroy-then-cancel and leaves the
state unchanged. -/
theorem C5_witness :
    stop sEx = (sEx, [Event.callDestroy 3 sEx.storage, Event.cancelAnimationFrame 5]) :=
  (C5_stop_contract sEx 3 5 rfl rfl (by norm_num)).1

/-- C6: initialization against a container with non-zero dimensions uses each
injected resource untouched when supplied (the injected renderer keeps its
identity and is merely resized), otherwise constructs the default: a fresh
scene and loading manager, and a perspective camera with 75-degree field of
view, near 0.1, far 1000 and aspect `w / h`; the renderer actually used is
sized to `(w, h)` with its pixel ratio set to the device pixel ratio,
falling back to 1 when that is unavailable or zero. -/
theorem C6_initialize_contract (w h : ℚ) (dpr : Option ℚ) (events : EventsArguments)
    (ctx : ContextArguments) (fid fresh : Nat) (hw : w ≠ 0) (hh : h ≠ 0) :
    ((∀ sc, ctx.scene = some sc →
      (mountEffect w h dpr fid fresh (firstRender events ctx)).1.scene = some sc) ∧
    (∀ cam, ctx.camera = some cam →
      (mountEffect w h dpr fid fresh (firstRender events ctx)).1.camera = some cam) ∧
    (∀ m, ctx.manager = some m →
      (mountEffect w h dpr fid fresh (firstRender events ctx)).1.manager = some m) ∧
    (∀ ren, ctx.renderer = some ren →
      (mountEffect w h dpr fid fresh (firstRender events ctx)).1.renderer =
        some { ren with width := w, height := h, pixelDensity := jsOrOne dpr })) ∧
    ((ctx.scene = none →
      (mountEffect w h dpr fid fresh (firstRender events ctx)).1.scene =
        some { id := fresh }) ∧
    (ctx.camera = none →
      (mountEffect w h dpr fid fresh (firstRender events ctx)).1.camera = some
        { id := fresh + 2, type := CameraType.perspectiveCamera, fov := 75,
          aspect := JsNum.num (w / h), near := 1/10, far := 1000 }) ∧
    (ctx.manager = none →
      (mountEffect w h dpr fid fresh (firstRender events ctx)).1.manager =
        some { id := fresh + 3 })) ∧
    (((mountEffect w h dpr fid fresh (firstRender events ctx)).1.renderer.map
        WebGLRenderer.width = some w) ∧
     ((mountEffect w h dpr fid fresh (firstRender events ctx)).1.renderer.map
        WebGLRenderer.height = some h) ∧
     ((mountEffect w h dpr fid fresh (firstRender events ctx)).1.renderer.map
        WebGLRenderer.pixelDensity = some (jsOrOne dpr))) := by
  refine ⟨⟨?_, ?_, ?_, ?_⟩, ⟨?_, ?_, ?_⟩, ?_, ?_, ?_⟩ <;>
    first
    | (intro x hx
       simp [mountEffect, firstRender, start, frameTruthy, jsDiv, defaultCamera, hx, hh])
    | (intro hx
       simp [mountEffect, firstRender, start, frameTruthy, jsDiv, defaultCamera, hx, hh])
    | simp [mountEffect, firstRender, start, frameTruthy, jsDiv, defaultCamera, hh]

/-- C6 witness: mounting in an 800×600 container with no injected resources
and no device pixel ratio: the default camera has aspect `800 / 600` and the
renderer is sized 800×600 at pixel ratio 1. -/
theorem C6_witness :
    ((mountEffect 800 600 none 5 100 (firstRender {} ctxEmpty)).1.camera = some
      { id := 102, type := CameraType.perspectiveCamera, fov := 75,
        aspect := JsNum.num (800 / 600), near := 1/10, far := 1000 }) ∧
    ((mountEffect 800 600 none 5 100 (firstRender {} ctxEmpty)).1.renderer.map
        WebGLRenderer.width = some 800) ∧
    ((mountEffect 800 600 none 5 100 (firstRender {} ctxEmpty)).1.renderer.map
        WebGLRenderer.pixelDensity = some (jsOrOne none)) := by
  have h := C6_initialize_contract 800 600 none {} ctxEmpty 5 100 (by norm_num) (by norm_num)
  exact ⟨h.2.1.2.1 rfl, h.2.2.1, h.2.2.2.2⟩

/-- C7: the `webgl2` option is ignored at session start. `createRenderer` —
the helper that would build the renderer over a webgl2 canvas context — is
never called by the mount effect, which constructs a plain
`new THREE.WebGLRenderer()` instead. With `webgl2` set and no pre-built
renderer supplied (`c7State`), the renderer actually installed has a default
(non-webgl2) context, while `createRenderer` applied to the same
configuration (webgl2 context available) would have produced a webgl2 one. -/
theorem C7_webgl2_option_ignored :
    c7State.firstRenderContext.webgl2 = true ∧
    c7State.firstRenderContext.renderer = none ∧
    (c7State.renderer.map WebGLRenderer.webgl2Context = some false) ∧
    ((createRenderer true true 101).webgl2Context = true) := by
  decide

/-- C8: each of the three asset-loading forwarders reads the Callback
Registry in force at event time and, when the corresponding handler is
registered, invokes exactly it, exactly once, with the Shared Context and the
event's native payload (`item`/`loaded`/`total` for progress, the `url` for
error, nothing for completion); an absent handler is skipped without any
effect. -/
theorem C8_manager_forwarders (s : HookState) (item url loaded total : Nat) :
    (∀ hP, s.callbacks.onLoadProgress = some hP →
      managerOnProgress s item loaded total =
        [Event.callLoadProgress hP s.storage item loaded total]) ∧
    (s.callbacks.onLoadProgress = none → managerOnProgress s item loaded total = []) ∧
    (∀ hE, s.callbacks.onLoadError = some hE →
      managerOnError s url = [Event.callLoadError hE s.storage url]) ∧
    (s.callbacks.onLoadError = none → managerOnError s url = []) ∧
    (∀ hL, s.callbacks.onLoad = some hL → managerOnLoad s = [Event.callLoad hL s.storage]) ∧
    (s.callbacks.onLoad = none → managerOnLoad s = []) := by
  refine ⟨?_, ?_, ?_, ?_, ?_, ?_⟩ <;>
    first
    | (intro hX hx
       simp [managerOnProgress, managerOnError, managerOnLoad, hx])
    | (intro hx
       simp [managerOnProgress, managerOnError, managerOnLoad, hx])

/-- C8 witness: in the populated post-mount state `sEx` (whose
`onLoadProgress` is handler 6), a progress report `(item 11, 3, 10)` invokes
handler 6 exactly once, synchronously, with the Shared Context and the
payload `(11, 3, 10)`. -/
theorem C8_witness :
    managerOnProgress sEx 11 3 10 = [Event.callLoadProgress 6 sEx.storage 11 3 10] :=
  (C8_manager_forwarders sEx 11 0 3 10).1 6 rfl

/-- C9 counterexample: initialization with a zero-height 800×0 container does
NOT fail — JavaScript division by zero produces `Infinity`, the default
perspective camera is built with that degenerate aspect, and the session
proceeds normally: the mount effect completes and the first frame is still
requested. This refutes the claim that zero container extent is a fatal,
propagating failure of `start()`. -/
theorem C9_counterexample :
    ((mountEffect 800 0 none 5 100 (firstRender {} ctxEmpty)).1.camera = some
      { id := 102, type := CameraType.perspectiveCamera, fov := 75,
        aspect := JsNum.posInf, near := 1/10, far := 1000 }) ∧
    Event.requestAnimationFrame ∈ (mountEffect 800 0 none 5 100 (firstRender {} ctxEmpty)).2 := by
  constructor
  · rfl
  · decide

/-- C9 (amended): a zero-extent container is not an error: every operation in
the mount effect is total, so initialization completes, the first frame is
requested, and the default camera simply carries a degenerate aspect ratio —
`Infinity` for a zero-height container of positive width, `NaN` when both
dimensions are zero (a zero-width container of positive height yields the
non-degenerate aspect 0). -/
theorem C9_zero_extent_amended (w : ℚ) (dpr : Option ℚ) (events : EventsArguments)
    (ctx : ContextArguments) (fid fresh : Nat) (hcam : ctx.camera = none) :
    ((0 < w → (mountEffect w 0 dpr fid fresh (firstRender events ctx)).1.camera.map
        Camera.aspect = some JsNum.posInf) ∧
     (w = 0 → (mountEffect w 0 dpr fid fresh (firstRender events ctx)).1.camera.map
        Camera.aspect = some JsNum.nan)) ∧
    Event.requestAnimationFrame ∈ (mountEffect w 0 dpr fid fresh (firstRender events ctx)).2 := by
  refine ⟨⟨?_, ?_⟩, ?_⟩
  · intro hpos
    simp [mountEffect, firstRender, start, frameTruthy, jsDiv, defaultCamera, hcam,
      hpos, ne_of_gt hpos]
  · intro hz
    simp [mountEffect, firstRender, start, frameTruthy, jsDiv, defaultCamera, hcam, hz]
  · cases hO : events.onStart <;>
      simp [mountEffect, firstRender, start, frameTruthy, hO]

/-- C9 amended witness: mounting in an 800×0 container proceeds and yields a
camera whose aspect is `Infinity`. -/
theorem C9_amended_witness :
    (mountEffect 800 0 none 5 100 (firstRender {} ctxEmpty)).1.camera.map
      Camera.aspect = some JsNum.posInf :=
  (C9_zero_extent_amended 800 none {} ctxEmpty 5 100 rfl).1.1 (by norm_num)

/-- C10: a tick dispatched while any of the renderer, camera or scene handle
is still unset performs no render pass: `renderScene` emits nothing, and the
tick's trace contains no projection-matrix recompute and no render call, so
no tick dereferences a missing resource handle. -/
theorem C10_render_guard (s : HookState) (t : ℚ) (fid : Nat)
    (h : s.renderer = none ∨ s.camera = none ∨ s.scene = none) :
    renderScene s = [] ∧
    (∀ e ∈ (update t fid s).2,
      (∀ c, e ≠ Event.updateProjectionMatrix c) ∧
      (∀ a b c, e ≠ Event.render a b c)) := by
  have hrs : renderScene
      { s with deltaTime := (t - s.lastTime) / 1000, frameId := some fid } = [] :=
    renderScene_missing _ (by simpa using h)
  refine ⟨renderScene_missing s h, ?_⟩
  intro e he
  cases hu : s.callbacks.onUpdate <;>
    cases hm : s.storage.manualRender <;>
    simp [update, hu, hm, hrs] at he <;>
    first
    | (rcases he with he | he <;> simp [he])
    | simp [he]

/-- C10 witness: in the freshly created hook state (no resources yet), a tick
at timestamp 16 emits no render-pass event. -/
theorem C10_witness :
    renderScene (firstRender {} ctxEmpty) = [] ∧
    ∀ a b c, Event.render a b c ∉ (update 16 1 (firstRender {} ctxEmpty)).2 := by
  have h := C10_render_guard (firstRender {} ctxEmpty) 16 1 (Or.inl rfl)
  exact ⟨h.1, fun a b c hmem => ((h.2 _ hmem).2 a b c) rfl⟩

end UseThree
